import Mathlib

/-!
Verification of the mma-ai pg-query core: the schema-semantics inference
pipeline, SQL extraction from model output, snapshot building, prompt
rendering of relationships, and the execution/repair control flow.
The definitions below are shallow embeddings of `src/pg-query/streamlit.py`
and `src/pg-query/ui/streamlit.py`; Python strings are modelled as Lean
`String`/`List Char`, the database and LLM collaborators as oracle
functions, and mutable session state as explicitly threaded values.
Definitions come first, then all theorems.
-/

/-! ## Python string primitives -/

/-- Python `needle in hay` on lists of characters (empty needle is always found). -/
def containsSub (needle : List Char) : List Char → Bool
  | [] => needle.isEmpty
  | c :: cs => needle.isPrefixOf (c :: cs) || containsSub needle cs

/-- Python `needle in hay` for strings. -/
def strContains (hay needle : String) : Bool :=
  containsSub needle.toList hay.toList

/-- Python `s.endswith(suffix)`. -/
def strEndsWith (s suffix : String) : Bool :=
  suffix.toList.isSuffixOf s.toList

/-- Python `s.lower()` (ASCII case folding; the source only handles ASCII names). -/
def pyLower (s : String) : String :=
  String.mk (s.toList.map Char.toLower)

/-- Worker for Python `s.replace`: scans left to right; `skip` counts
characters still to drop from a pattern occurrence already replaced. -/
def replaceAux (pat repl : List Char) : Nat → List Char → List Char
  | _, [] => []
  | Nat.succ k, _ :: cs => replaceAux pat repl k cs
  | 0, c :: cs =>
    if pat.isPrefixOf (c :: cs) && !pat.isEmpty then
      repl ++ replaceAux pat repl (pat.length - 1) cs
    else
      c :: replaceAux pat repl 0 cs

/-- Python `s.replace(pat, repl)`: every non-overlapping occurrence, left to right. -/
def replaceAllL (pat repl : List Char) (s : List Char) : List Char :=
  replaceAux pat repl 0 s

/-- Python `s.replace(pat, repl)` for strings. -/
def pyReplace (s pat repl : String) : String :=
  String.mk (replaceAllL pat.toList repl.toList s.toList)

/-- The whitespace class of Python `str.strip` / regex `\s` (ASCII part;
the source only feeds it ASCII model output). -/
def isPySpace (c : Char) : Bool :=
  c == ' ' || c == '\t' || c == '\n' || c == '\r' || c == Char.ofNat 11 || c == Char.ofNat 12

/-- Python `s.strip()`. -/
def pyStrip (s : List Char) : List Char :=
  ((s.dropWhile isPySpace).reverse.dropWhile isPySpace).reverse

/-! ## Semantic Inference Engine
Embeds `DatabaseAnalyzer.infer_column_semantics` (src/pg-query/streamlit.py
lines 194-307).  The per-analyzer memo `self.column_semantics` is threaded
as an association list, and the database comment lookup
`get_comment_for_column` is an oracle `colComment` (it returns `""` when no
comment is stored, exactly as the source method does). -/

/-- Association-list lookup, the model of Python dict `d[k]` / `k in d`. -/
def alist_lookup {α : Type} : List (String × α) → String → Option α
  | [], _ => none
  | (k, v) :: rest, key => if k = key then some v else alist_lookup rest key

def Cache : Type := List (String × String)

def date_created_patterns : List String :=
  ["created_at", "creation_date", "date_created", "created_on"]

def date_updated_patterns : List String :=
  ["updated_at", "modification_date", "date_updated", "modified_on", "last_updated"]

def date_deleted_patterns : List String :=
  ["deleted_at", "deletion_date", "date_deleted", "removed_on"]

def delivery_patterns : List String :=
  ["delivery_date", "delivered_at", "date_delivered"]

def dispatch_patterns : List String :=
  ["dispatch_date", "dispatched_at", "date_dispatched", "shipped_date", "shipped_at"]

def order_patterns : List String :=
  ["order_date", "ordered_at", "date_ordered"]

def payment_patterns : List String :=
  ["payment_date", "paid_at", "date_paid"]

def id_patterns : List String :=
  ["_id", "id", "_key", "uuid", "guid"]

def status_patterns : List String :=
  ["status", "state", "condition"]

/-- Python `any(pattern in col_lower for pattern in pats)`. -/
def anyPatIn (pats : List String) (cl : String) : Bool :=
  pats.any (fun p => strContains cl p)

/-- Python `any(col_lower.endswith(suffix) for suffix in pats)`. -/
def anyEndsWith (pats : List String) (cl : String) : Bool :=
  pats.any (fun p => strEndsWith cl p)

def dateTypes : List String := ["date", "timestamp", "timestamptz", "datetime"]

def numericTypes : List String := ["integer", "bigint", "numeric", "decimal", "double precision"]

def stringTypes : List String := ["character varying", "varchar", "text", "char"]

/-- The `meaning` computed by the four type-category if/elif chains of
`infer_column_semantics` (lines 234-293), before the identifier fallback.
`col_lower` is the already lowercased column name. -/
def categoryMeaning (col_lower data_type : String) : String :=
  if data_type ∈ dateTypes then
    if anyPatIn date_created_patterns col_lower then "Timestamp when the record was created"
    else if anyPatIn date_updated_patterns col_lower then "Timestamp when the record was last updated"
    else if anyPatIn date_deleted_patterns col_lower then "Timestamp when the record was deleted (for soft deletes)"
    else if anyPatIn delivery_patterns col_lower then "Date when items were actually delivered to the customer"
    else if anyPatIn dispatch_patterns col_lower then "Date when items were dispatched from the warehouse/facility"
    else if anyPatIn order_patterns col_lower then "Date when the order was placed"
    else if anyPatIn payment_patterns col_lower then "Date when payment was received"
    else if strContains col_lower "due" then "Due date or deadline"
    else if strContains col_lower "start" then "Start date of an event or period"
    else if strContains col_lower "end" then "End date of an event or period"
    else ""
  else if data_type ∈ numericTypes then
    if strContains col_lower "price" || strContains col_lower "cost" || strContains col_lower "amount" then
      "Monetary value"
    else if strContains col_lower "quantity" || strContains col_lower "count" || strContains col_lower "number" then
      "Quantity or count"
    else if strContains col_lower "discount" then
      "Discount value (possibly percentage if between 0-1 or 0-100)"
    else if strContains col_lower "total" then
      "Total calculated value"
    else if anyEndsWith id_patterns col_lower then
      "Identifier or foreign key"
    else ""
  else if data_type = "boolean" then
    if strContains col_lower "is_" || strContains col_lower "has_" then
      "Indicates if the record " ++ pyReplace (pyReplace col_lower "is_" "") "has_" ""
    else if strContains col_lower "active" || strContains col_lower "enabled" then
      "Indicates if the record is active or enabled"
    else ""
  else if data_type ∈ stringTypes then
    if anyPatIn status_patterns col_lower then "Status or state of the record"
    else if strContains col_lower "name" then "Name or title"
    else if strContains col_lower "description" || strContains col_lower "desc" then "Descriptive text"
    else if strContains col_lower "code" then "Code or identifier"
    else if strContains col_lower "address" then "Address information"
    else if strContains col_lower "email" then "Email address"
    else if strContains col_lower "phone" then "Phone number"
    else ""
  else ""

/-- The identifier fallback of `infer_column_semantics` (lines 295-303):
`if not meaning: if any(col_lower.endswith(suffix) ...): if col_lower == 'id'
or col_lower.endswith('_id'): relation = col_lower.replace('_id', '') ...`. -/
def idFallback (col_lower : String) : String :=
  if anyEndsWith id_patterns col_lower = true then
    if col_lower = "id" ∨ strEndsWith col_lower "_id" = true then
      if pyReplace col_lower "_id" "" ≠ "" then
        "Identifier for a " ++ pyReplace col_lower "_id" ""
      else
        "Primary identifier"
    else ""
  else ""

/-- The pure pattern part of `infer_column_semantics`: the type-category
chains followed by the identifier fallback when they produced `""` (the
source binds `col_lower` and `meaning` once; they are inlined here). -/
def inferPatterns (column_name data_type : String) : String :=
  if categoryMeaning (pyLower column_name) data_type = "" then
    idFallback (pyLower column_name)
  else
    categoryMeaning (pyLower column_name) data_type

/-- Result of one `infer_column_semantics` call: the returned label, the
updated memo dictionary, and how many `get_comment_for_column` round trips
the call performed (0 on a memo hit, 1 otherwise). -/
structure InferResult where
  label : String
  cache : Cache
  commentLookups : Nat

/-- Embeds `DatabaseAnalyzer.infer_column_semantics` (lines 194-307): memo
check on the `table.column` key first, then the stored-comment lookup
(which wins when non-empty), then the name/type pattern rules; the computed
meaning (possibly `""`) is stored in the memo before returning. -/
def infer_column_semantics (colComment : String → String → String)
    (cache : Cache) (table_name column_name data_type : String) : InferResult :=
  let column_key := table_name ++ "." ++ column_name
  match alist_lookup cache column_key with
  | some v => ⟨v, cache, 0⟩
  | none =>
    let comment := colComment table_name column_name
    if comment ≠ "" then ⟨comment, (column_key, comment) :: cache, 1⟩
    else
      let meaning := inferPatterns column_name data_type
      ⟨meaning, (column_key, meaning) :: cache, 1⟩

/-- A comment store with no comments at all. -/
def noComments : String → String → String := fun _ _ => ""

/-- A comment store holding one column comment, for witnesses. -/
def demoComments : String → String → String :=
  fun table_name column_name =>
    if table_name = "orders" ∧ column_name = "order_id" then
      "Order number assigned at checkout"
    else ""

/-! ## Response Interpreter: SQL extraction
Embeds `extract_sql_from_response` (src/pg-query/streamlit.py lines
583-607): a regex search for the first fenced code block with an optional
`sql` tag under DOTALL, else the whole response stripped; then
`re.sub` of the leading label alternation (SQL query | Query | SQL, an
optional colon, whitespace) under IGNORECASE; then removal of every
remaining backtick.  (ui/streamlit.py imports the same function from its
`utils` module, which is not under src/.) -/

def backquote : Char := Char.ofNat 96

def fenceChars : List Char := [backquote, backquote, backquote]

/-- Splits `hay` at the first occurrence of `needle`: returns the part
before and the part after the occurrence, or `none` if absent. -/
def splitAtSub (needle : List Char) : List Char → Option (List Char × List Char)
  | [] => if needle.isEmpty then some ([], []) else none
  | c :: cs =>
    if needle.isPrefixOf (c :: cs) then
      some ([], (c :: cs).drop needle.length)
    else
      match splitAtSub needle cs with
      | some (pre, post) => some (c :: pre, post)
      | none => none

/-- The interior of the first fenced code block matched by
`(?:sql)?(.*?)` with DOTALL: text between the first triple backtick
(with an optional literal `sql` tag right after it) and the next triple
backtick; `none` when the response holds no complete block. -/
def firstBlockInterior (s : List Char) : Option (List Char) :=
  match splitAtSub fenceChars s with
  | none => none
  | some (_, rest) =>
    let rest2 := if ("sql".toList).isPrefixOf rest then rest.drop 3 else rest
    match splitAtSub fenceChars rest2 with
    | none => none
    | some (interior, _) => some interior

/-- Case-insensitive prefix matcher (the label alternation runs under
`re.IGNORECASE`): returns the rest of `s` after the pattern, or `none`. -/
def matchHeadCI : List Char → List Char → Option (List Char)
  | [], s => some s
  | _ :: _, [] => none
  | p :: ps, c :: cs =>
    if p.toLower = c.toLower then matchHeadCI ps cs else none

/-- The `:?\s*` tail of the label pattern: one optional colon, then any
run of whitespace. -/
def labelTail (r : List Char) : List Char :=
  (match r with
   | c :: cs => if c = ':' then cs else c :: cs
   | [] => []).dropWhile isPySpace

/-- `re.sub(r'^(?:SQL query|Query|SQL):?\s*', '', s, flags=re.IGNORECASE)`:
the alternation is tried in the source's order at the start of the string
only; note the colon is optional. -/
def stripSqlLabel (s : List Char) : List Char :=
  match matchHeadCI ("SQL query".toList) s with
  | some r => labelTail r
  | none =>
    match matchHeadCI ("Query".toList) s with
    | some r => labelTail r
    | none =>
      match matchHeadCI ("SQL".toList) s with
      | some r => labelTail r
      | none => s

/-- The first stage of `extract_sql_from_response`: the first block's
interior stripped when a block exists, otherwise the whole response
stripped. -/
def extractBody (response : String) : List Char :=
  match firstBlockInterior response.toList with
  | some interior => pyStrip interior
  | none => pyStrip response.toList

/-- Embeds `extract_sql_from_response`: first block interior (stripped)
or the whole stripped response, label removal, then removal of every
remaining backtick character. -/
def extract_sql_from_response (response : String) : String :=
  String.mk ((stripSqlLabel (extractBody response)).filter (fun c => !(c == backquote)))

/-- Case-insensitive "starts with" test, used by the two spec-side
formulations of the label rule. -/
def startsWithCI (s : List Char) (pat : String) : Bool :=
  decide ((s.take pat.toList.length).map Char.toLower = pat.toList.map Char.toLower)

/-- The label prefixes exactly as claim C3 words them: colon included. -/
def claimLabels : List String := ["SQL query:", "Query:", "SQL:"]

/-- The label rule as claim C3 states it: one of the labels (colon
required, case-insensitive) is removed from the very start, together with
following whitespace (forced by the claim's "SQL: SELECT 1;" example). -/
def stripLabelClaim (s : List Char) : List Char :=
  match claimLabels.find? (fun lab => startsWithCI s lab) with
  | some lab => (s.drop lab.toList.length).dropWhile isPySpace
  | none => s

/-- The extraction algorithm as claim C3 states it: same block selection
and backtick removal, but the leading label must carry its colon. -/
def extractSqlClaim (response : String) : String :=
  String.mk ((stripLabelClaim (extractBody response)).filter (fun c => !(c == backquote)))

/-- The labels of the amended claim: bare words, the colon being optional. -/
def sqlLabels : List String := ["SQL query", "Query", "SQL"]

/-- The label rule as the amended claim words it: the first of the labels
(in listed order) that starts the string case-insensitively is removed,
together with one optional colon and any following whitespace. -/
def stripLabelAmended (s : List Char) : List Char :=
  match sqlLabels.find? (fun lab => startsWithCI s lab) with
  | some lab => labelTail (s.drop lab.toList.length)
  | none => s

/-- The extraction pipeline as the amended claim describes it. -/
def extractSqlAmended (response : String) : String :=
  String.mk ((stripLabelAmended (extractBody response)).filter (fun c => !(c == backquote)))

/-- Decision taken by `main` in src/pg-query/streamlit.py (lines 866-876)
right after extraction: there is no emptiness check, the extracted string
(whatever it is) goes straight to `execute_query`. -/
inductive SubmitDecision where
  | submit (sql : String)
  | haltEmptyExtraction
deriving DecidableEq

/-- Embeds the post-extraction control flow of src/pg-query/streamlit.py
`main`: the extracted SQL is always submitted for execution. -/
def mainSubmitDecision (raw_response : String) : SubmitDecision :=
  SubmitDecision.submit (extract_sql_from_response raw_response)

/-- Embeds the post-extraction control flow of src/pg-query/ui/streamlit.py
`main` (lines 177-205): `if not sql_query: st.error(...); st.stop()` halts
with a distinct report before any execution.  (That file imports the
extraction function from its `utils` module, which is not under src/; it is
modelled as the identical `extract_sql_from_response` above, which the spec
describes for both callers.) -/
def uiSubmitDecision (raw_response : String) : SubmitDecision :=
  if extract_sql_from_response raw_response = "" then
    SubmitDecision.haltEmptyExtraction
  else
    SubmitDecision.submit (extract_sql_from_response raw_response)

/-! ## Schema Snapshot Builder
Embeds `DatabaseAnalyzer.analyze_schema` (src/pg-query/streamlit.py lines
333-390) and `get_sample_data` (lines 309-331).  The catalog queries
(`get_tables`, `get_table_columns`, `get_comment_for_table`,
`get_comment_for_column`, `get_foreign_keys`, `get_primary_keys`) and the
raw sample fetch are oracles packed in a `Catalog`; a sample fetch that
raises in Python is an `Except.error` here, which `get_sample_data`
swallows into `[]` just as the source's `except` block does. -/

/-- One column row from `get_table_columns`. -/
structure ColumnInfo where
  name : String
  type : String
  nullable : String
  default : Option String
  max_length : Option Nat
  precision : Option Nat
  scale : Option Nat
deriving DecidableEq

/-- A sample row: ordered mapping from column name to a rendered value. -/
abbrev Row : Type := List (String × String)

/-- One foreign-key edge from `get_foreign_keys`. -/
structure FKInfo where
  table : String
  column : String
  foreign_table : String
  foreign_column : String
deriving DecidableEq

/-- The catalog/collaborator oracles consumed by `analyze_schema`. -/
structure Catalog where
  tables : List String
  columns : String → List ColumnInfo
  tableComment : String → String
  colComment : String → String → String
  sampleFetch : String → Except String (List Row)
  foreignKeys : List FKInfo
  primaryKeys : List (String × List String)

/-- Embeds `get_sample_data`: the `SELECT * ... LIMIT limit` result, with
any exception swallowed into an empty sample list. -/
def get_sample_data (cat : Catalog) (table_name : String) (limit : Nat) : List Row :=
  match cat.sampleFetch table_name with
  | Except.ok rows => rows.take limit
  | Except.error _ => []

/-- A column dict after `analyze_schema` processed it: the original
column info plus the inferred semantics (the source adds the "semantics"
key only when non-empty; `""` here stands for the absent key). -/
structure ProcessedColumn where
  info : ColumnInfo
  semantics : String
deriving DecidableEq

/-- The per-table entry of `schema_info["tables"]`. -/
structure TableInfo where
  columns : List ProcessedColumn
  comment : String
deriving DecidableEq

/-- One entry of `schema_info["relationships"]`. -/
structure RelEntry where
  table : String
  column : String
  references_table : String
  references_column : String
deriving DecidableEq

/-- The `schema_info` dictionary built by `analyze_schema`. -/
structure SchemaInfo where
  tables : List (String × TableInfo)
  relationships : List RelEntry
  primary_keys : List (String × List String)
  sample_data : List (String × List Row)
  column_semantics : List (String × String)

/-- Result of processing one table's column list: the processed columns,
the new non-empty `column_semantics` entries, and the updated memo. -/
structure ProcCols where
  pcols : List ProcessedColumn
  sems : List (String × String)
  cache : Cache

/-- The per-column loop of `analyze_schema` (lines 355-366): infer each
column's semantics (threading the memo), keep the label on the column,
and record `table.column` in `column_semantics` when non-empty. -/
def processColumns (cat : Catalog) (table : String) :
    List ColumnInfo → Cache → ProcCols
  | [], cache => ⟨[], [], cache⟩
  | col :: rest, cache =>
    let r := infer_column_semantics cat.colComment cache table col.name col.type
    let p := processColumns cat table rest r.cache
    ⟨⟨col, r.label⟩ :: p.pcols,
     (if r.label ≠ "" then [(table ++ "." ++ col.name, r.label)] else []) ++ p.sems,
     p.cache⟩

/-- The accumulating state of the per-table loop of `analyze_schema`. -/
structure BuildAcc where
  tables : List (String × TableInfo)
  sample_data : List (String × List Row)
  column_semantics : List (String × String)
  cache : Cache

/-- The per-table loop of `analyze_schema` (lines 348-377): per table,
process the columns, fetch the table comment, store the table entry, and
store sample data only when `get_sample_data` returned something. -/
def analyzeTables (cat : Catalog) : List String → BuildAcc → BuildAcc
  | [], acc => acc
  | t :: rest, acc =>
    analyzeTables cat rest
      ⟨acc.tables ++ [(t, ⟨(processColumns cat t (cat.columns t) acc.cache).pcols,
          cat.tableComment t⟩)],
       acc.sample_data ++
         (if get_sample_data cat t 3 ≠ [] then [(t, get_sample_data cat t 3)] else []),
       acc.column_semantics ++ (processColumns cat t (cat.columns t) acc.cache).sems,
       (processColumns cat t (cat.columns t) acc.cache).cache⟩

/-- Embeds `analyze_schema`: tables, then relationships copied from the
foreign-key list, primary keys, sample data, and the non-empty inferred
semantics.  `cache0` is the analyzer's memo at entry (empty for a fresh
`DatabaseAnalyzer`). -/
def analyze_schema (cat : Catalog) (cache0 : Cache) : SchemaInfo :=
  ⟨(analyzeTables cat cat.tables ⟨[], [], [], cache0⟩).tables,
   cat.foreignKeys.map (fun fk => ⟨fk.table, fk.column, fk.foreign_table, fk.foreign_column⟩),
   cat.primaryKeys,
   (analyzeTables cat cat.tables ⟨[], [], [], cache0⟩).sample_data,
   (analyzeTables cat cat.tables ⟨[], [], [], cache0⟩).column_semantics⟩

/-- A two-table catalog whose second table's sample fetch fails. -/
def failCat : Catalog :=
  ⟨["good", "bad"],
   fun t => if t = "good" then [⟨"id", "integer", "NO", none, none, none, none⟩]
            else [⟨"x", "text", "YES", none, none, none, none⟩],
   fun t => if t = "bad" then "problem table" else "",
   fun _ _ => "",
   fun t => if t = "bad" then Except.error "permission denied"
            else Except.ok [[("id", "1")]],
   [],
   [("good", ["id"])]⟩

/-- The catalog of the spec's end-to-end scenario: one `orders` table with
`order_id`, `customer_id`, `order_date` and `delivery_date`, a primary key
on `order_id`, a foreign key to `customers.id`, and no stored comments. -/
def ordersCat : Catalog :=
  ⟨["orders"],
   fun t => if t = "orders" then
      [⟨"order_id", "integer", "NO", none, none, none, none⟩,
       ⟨"customer_id", "integer", "NO", none, none, none, none⟩,
       ⟨"order_date", "timestamp", "YES", none, none, none, none⟩,
       ⟨"delivery_date", "timestamp", "YES", none, none, none, none⟩]
    else [],
   fun _ => "",
   fun _ _ => "",
   fun _ => Except.ok [],
   [⟨"orders", "customer_id", "customers", "id"⟩],
   [("orders", ["order_id"])]⟩

/-! ## Prompt Renderer: relationship connectives
Embeds the relationship sections of `generate_schema_description`
(src/pg-query/streamlit.py lines 435-454) and `generate_schema_for_llm`
(lines 514-536).  Both read the foreign-key and primary-key side
semantics from `schema_info["column_semantics"]` with a `""` default and
emit a "(Connects ... to ...)" sentence when either is non-empty, naming
the referenced table when the referenced column has no semantic. -/

/-- One relationship line of the human-readable description (lines
438-454), connective included. -/
def relLineDescription (semMap : List (String × String)) (rel : RelEntry) : String :=
  let base := "  - " ++ rel.table ++ "." ++ rel.column ++ " references "
    ++ rel.references_table ++ "." ++ rel.references_column ++ "\n"
  let fk_semantic := (alist_lookup semMap (rel.table ++ "." ++ rel.column)).getD ""
  let pk_semantic :=
    (alist_lookup semMap (rel.references_table ++ "." ++ rel.references_column)).getD ""
  if fk_semantic ≠ "" ∨ pk_semantic ≠ "" then
    base ++ "    (Connects "
      ++ (if fk_semantic ≠ "" then fk_semantic ++ " " else "")
      ++ "to "
      ++ (if pk_semantic ≠ "" then pk_semantic else rel.references_table)
      ++ ")\n"
  else base

/-- One relationship line of the model-oriented brief (lines 518-536),
connective included. -/
def relLineLLM (semMap : List (String × String)) (rel : RelEntry) : String :=
  let base := "- " ++ rel.table ++ "." ++ rel.column ++ " → "
    ++ rel.references_table ++ "." ++ rel.references_column
  let fk_semantic := (alist_lookup semMap (rel.table ++ "." ++ rel.column)).getD ""
  let pk_semantic :=
    (alist_lookup semMap (rel.references_table ++ "." ++ rel.references_column)).getD ""
  (if fk_semantic ≠ "" ∨ pk_semantic ≠ "" then
    base ++ " (Connects "
      ++ (if fk_semantic ≠ "" then fk_semantic ++ " " else "")
      ++ "to "
      ++ (if pk_semantic ≠ "" then pk_semantic else rel.references_table)
      ++ ")"
  else base) ++ "\n"

/-- The relationships section of the human description (lines 435-454):
omitted when there are no relationships. -/
def relationshipsSectionDescription (schema : SchemaInfo) : String :=
  if schema.relationships ≠ [] then
    "Relationships:\n"
      ++ String.join (schema.relationships.map (relLineDescription schema.column_semantics))
  else ""

/-- The relationships section of the model brief (lines 514-536):
omitted when there are no relationships. -/
def relationshipsSectionLLM (schema : SchemaInfo) : String :=
  if schema.relationships ≠ [] then
    "## Relationships\n\n"
      ++ String.join (schema.relationships.map (relLineLLM schema.column_semantics))
  else ""

/-- A semantics map holding only the owning side of one foreign key. -/
def demoSemMap : List (String × String) := [("orders.customer_id", "Identifier for a customer")]

/-- The foreign-key edge orders.customer_id → customers.id. -/
def demoRel : RelEntry := ⟨"orders", "customer_id", "customers", "id"⟩

/-! ## Response Interpreter: execution outcome and query history
Embeds the generated-query execution flow of `main` in
src/pg-query/streamlit.py (lines 873-968): a successful execution appends
an entry to `st.session_state['query_history']`; a failing execution
appends nothing, shows the error analysis and offers a user-edited
replacement, which is appended only if it succeeds.  The database call is
an oracle `exec` returning the row count or the engine's error text, and
the LLM explanation is the `explain` argument. -/

/-- One entry of `st.session_state['query_history']`. -/
structure HistoryEntry where
  question : String
  sql_query : String
  results_count : Nat
  explanation : String
  timestamp : String
deriving DecidableEq

/-- Embeds lines 873-968 of `main`: execute the generated query; on
success append its entry; on failure run the user's `fixed_query` and
append its entry only on success (with the "FIXED: " question and the
"Manually fixed query" explanation, as the source writes them). -/
def generatedQueryFlow (exec : String → Except String Nat)
    (explain ts question sql_query fixed_query : String)
    (history : List HistoryEntry) : List HistoryEntry :=
  match exec sql_query with
  | Except.ok n => history ++ [⟨question, sql_query, n, explain, ts⟩]
  | Except.error _ =>
    match exec fixed_query with
    | Except.ok n =>
      history ++ [⟨"FIXED: " ++ question, fixed_query, n, "Manually fixed query", ts⟩]
    | Except.error _ => history

/-- A database oracle on which one statement succeeds with one row and
everything else fails. -/
def demoExec : String → Except String Nat :=
  fun s => if s = "SELECT count(*) FROM orders" then Except.ok 1
           else Except.error "relation does not exist"

/-! ## Connection liveness
`DatabaseAnalyzer.execute_query` (src/pg-query/streamlit.py lines 557-581)
checks only `if not self.connection` — an absent connection is connected,
but a dead one is used as-is and `cursor.execute` fails on it.  The
generated- and fixed-query paths of src/pg-query/ui/streamlit.py (lines
193-205 and 277-287) additionally call `check_connection_health` and
reconnect once before executing; that method lives in the `database_analyzer`
module, which is not under src/. -/

/-- The state of the session's single database connection. -/
inductive ConnState where
  | absent
  | live
  | dead
deriving DecidableEq

/-- The error text modelling the psycopg2 failure wrapped by
`execute_query` when `cursor.execute` runs on a dead connection. -/
def deadConnMessage : String := "Error executing query: connection already closed"

/-- The error raised when `self.connection` is still `None` after a failed
implicit `connect()` (`self.connection.cursor` on `None`). -/
def noConnMessage : String := "AttributeError: NoneType has no attribute cursor"

/-- The terminal report of the ui flow when its one reconnect fails. -/
def reconnectFailMessage : String := "Could not reconnect to database"

/-- Embeds `execute_query` (lines 557-581): connect only when the
connection is absent; then submit the query on whatever connection is
held.  Returns (connection state after, number of `connect()` attempts,
whether the query was submitted to the database, result).  `connectOk`
tells whether `psycopg2.connect` would succeed; `runQuery` models
`cursor.execute` plus fetch on a live connection. -/
def execute_query_conn (connectOk : Bool) (runQuery : String → Except String Nat)
    (conn : ConnState) (query : String) : ConnState × Nat × Bool × Except String Nat :=
  match conn with
  | ConnState.absent =>
    if connectOk then (ConnState.live, 1, true, runQuery query)
    else (ConnState.absent, 1, false, Except.error noConnMessage)
  | ConnState.live => (ConnState.live, 0, true, runQuery query)
  | ConnState.dead => (ConnState.dead, 0, true, Except.error deadConnMessage)

/-- Modelled from the spec: `check_connection_health`, defined in the
`database_analyzer` module imported by src/pg-query/ui/streamlit.py but not
present under src/, reports whether the session's connection is live. -/
def check_connection_health (conn : ConnState) : Bool :=
  match conn with
  | ConnState.live => true
  | _ => false

/-- Embeds the ui generated-query execution path (ui/streamlit.py lines
193-205): health check first; on failure one `connect()`; a failed
reconnect stops before any execution with a terminal report. -/
def ui_execute_flow (connectOk : Bool) (runQuery : String → Except String Nat)
    (conn : ConnState) (query : String) : ConnState × Nat × Bool × Except String Nat :=
  if check_connection_health conn then (conn, 0, true, runQuery query)
  else if connectOk then (ConnState.live, 1, true, runQuery query)
  else (conn, 1, false, Except.error reconnectFailMessage)

/-! ## Helper lemmas -/

/-- `matchHeadCI` succeeds exactly on a case-insensitive prefix, and then
returns the string with the pattern's length dropped. -/
theorem matchHeadCI_spec (pat : List Char) : ∀ s : List Char,
    matchHeadCI pat s =
      (if (s.take pat.length).map Char.toLower = pat.map Char.toLower then
        some (s.drop pat.length)
      else none) := by
  induction pat with
  | nil =>
    intro s
    simp [matchHeadCI]
  | cons p ps ih =>
    intro s
    cases s with
    | nil => simp [matchHeadCI]
    | cons c cs =>
      simp only [matchHeadCI, List.length_cons, List.take_succ_cons, List.drop_succ_cons,
        List.map_cons]
      by_cases h : p.toLower = c.toLower
      · rw [if_pos h, ih cs]
        by_cases h2 : (cs.take ps.length).map Char.toLower = ps.map Char.toLower
        · rw [if_pos h2, if_pos]
          rw [h2, h]
        · rw [if_neg h2, if_neg]
          intro hcontra
          injection hcontra with _ h3
          exact h2 h3
      · rw [if_neg h, if_neg]
        intro hcontra
        injection hcontra with h3 _
        exact h (h3.symm)

/-- `startsWithCI` is the success test of `matchHeadCI`. -/
theorem startsWithCI_eq_isSome (s : List Char) (pat : String) :
    startsWithCI s pat = (matchHeadCI pat.toList s).isSome := by
  rw [matchHeadCI_spec]
  unfold startsWithCI
  by_cases h : (s.take pat.toList.length).map Char.toLower = pat.toList.map Char.toLower
  · rw [if_pos h, decide_eq_true h]
    rfl
  · rw [if_neg h, decide_eq_false h]
    rfl

/-- A successful `matchHeadCI` returns the input minus the pattern length. -/
theorem matchHeadCI_some_drop (pat s r : List Char) (h : matchHeadCI pat s = some r) :
    r = s.drop pat.length := by
  rw [matchHeadCI_spec] at h
  by_cases hc : (s.take pat.length).map Char.toLower = pat.map Char.toLower
  · rw [if_pos hc] at h
    exact (Option.some.inj h).symm
  · rw [if_neg hc] at h
    exact absurd h (by simp)

/-- The source's label regex and the amended claim's label rule agree. -/
theorem stripSqlLabel_eq_amended (s : List Char) :
    stripSqlLabel s = stripLabelAmended s := by
  unfold stripSqlLabel stripLabelAmended sqlLabels
  simp only [List.find?, startsWithCI_eq_isSome]
  cases h1 : matchHeadCI ("SQL query".toList) s with
  | some r1 =>
    simp only [h1, Option.isSome_some]
    rw [matchHeadCI_some_drop _ _ _ h1]
  | none =>
    simp only [h1, Option.isSome_none]
    cases h2 : matchHeadCI ("Query".toList) s with
    | some r2 =>
      simp only [h2, Option.isSome_some]
      rw [matchHeadCI_some_drop _ _ _ h2]
    | none =>
      simp only [h2, Option.isSome_none]
      cases h3 : matchHeadCI ("SQL".toList) s with
      | some r3 =>
        simp only [h3, Option.isSome_some]
        rw [matchHeadCI_some_drop _ _ _ h3]
      | none =>
        simp only [h3, Option.isSome_none]

theorem alist_lookup_append {α : Type} (l₁ l₂ : List (String × α)) (k : String) :
    alist_lookup (l₁ ++ l₂) k =
      (match alist_lookup l₁ k with
       | some v => some v
       | none => alist_lookup l₂ k) := by
  induction l₁ with
  | nil => simp [alist_lookup]
  | cons p rest ih =>
    cases p with
    | mk a b =>
      by_cases h : a = k
      · simp [alist_lookup, h]
      · simp [alist_lookup, h, ih]

theorem alist_lookup_eq_none_of_not_mem {α : Type} (l : List (String × α)) (k : String)
    (h : k ∉ l.map Prod.fst) : alist_lookup l k = none := by
  induction l with
  | nil => rfl
  | cons p rest ih =>
    cases p with
    | mk a b =>
      simp only [List.map_cons, List.mem_cons, not_or] at h
      have hak : ¬(a = k) := fun he => h.1 (Eq.symm he)
      simp [alist_lookup, hak, ih h.2]

/-- Processing a table's columns leaves the underlying column infos intact. -/
theorem processColumns_infos (cat : Catalog) (t : String) : ∀ (cols : List ColumnInfo) (cache : Cache),
    ((processColumns cat t cols cache).pcols).map (fun pc => pc.info) = cols := by
  intro cols
  induction cols with
  | nil => intro cache; rfl
  | cons c rest ih =>
    intro cache
    simp [processColumns, ih]

/-- The table list of the accumulator only ever grows. -/
theorem analyzeTables_tables_mono (cat : Catalog) : ∀ (ts : List String) (acc : BuildAcc),
    ∃ l, (analyzeTables cat ts acc).tables = acc.tables ++ l := by
  intro ts
  induction ts with
  | nil => intro acc; exact ⟨[], by simp [analyzeTables]⟩
  | cons t rest ih =>
    intro acc
    obtain ⟨l, hl⟩ := ih ⟨acc.tables ++ [(t, ⟨(processColumns cat t (cat.columns t) acc.cache).pcols,
        cat.tableComment t⟩)],
      acc.sample_data ++
        (if get_sample_data cat t 3 ≠ [] then [(t, get_sample_data cat t 3)] else []),
      acc.column_semantics ++ (processColumns cat t (cat.columns t) acc.cache).sems,
      (processColumns cat t (cat.columns t) acc.cache).cache⟩
    refine ⟨(t, ⟨(processColumns cat t (cat.columns t) acc.cache).pcols, cat.tableComment t⟩) :: l, ?_⟩
    rw [analyzeTables, hl]
    simp

/-- The keys of the built table map are exactly the catalog's table list. -/
theorem analyzeTables_table_keys (cat : Catalog) : ∀ (ts : List String) (acc : BuildAcc),
    ((analyzeTables cat ts acc).tables).map Prod.fst = acc.tables.map Prod.fst ++ ts := by
  intro ts
  induction ts with
  | nil => intro acc; simp [analyzeTables]
  | cons t rest ih =>
    intro acc
    rw [analyzeTables, ih]
    simp

/-- A table whose raw sample fetch fails never acquires a `sample_data`
entry during the build. -/
theorem analyzeTables_sd_not_mem (cat : Catalog) (t : String) (e : String)
    (he : cat.sampleFetch t = Except.error e) :
    ∀ (ts : List String) (acc : BuildAcc), t ∉ acc.sample_data.map Prod.fst →
      t ∉ ((analyzeTables cat ts acc).sample_data).map Prod.fst := by
  intro ts
  induction ts with
  | nil => intro acc h; simpa [analyzeTables] using h
  | cons u rest ih =>
    intro acc h
    rw [analyzeTables]
    apply ih
    by_cases hu : u = t
    · subst hu
      have hsd : get_sample_data cat u 3 = [] := by simp [get_sample_data, he]
      simp [hsd, h]
    · by_cases hsd : get_sample_data cat u 3 = []
      · simp [hsd, h]
      · have htu : ¬t = u := fun hh => hu (Eq.symm hh)
        simp [hsd, h, htu]

/-- Every table of the catalog list gets an entry in the built table map,
holding its catalog comment and its catalog columns. -/
theorem analyzeTables_tables_entry (cat : Catalog) (t : String) :
    ∀ (ts : List String) (acc : BuildAcc), t ∈ ts → t ∉ acc.tables.map Prod.fst →
    ∃ ti, alist_lookup (analyzeTables cat ts acc).tables t = some ti ∧
      ti.comment = cat.tableComment t ∧
      ti.columns.map (fun pc => pc.info) = cat.columns t := by
  intro ts
  induction ts with
  | nil => intro acc h; exact absurd h (List.not_mem_nil t)
  | cons u rest ih =>
    intro acc hmem hnot
    by_cases hu : t = u
    · subst hu
      rw [analyzeTables]
      obtain ⟨l, hl⟩ := analyzeTables_tables_mono cat rest
        ⟨acc.tables ++ [(t, ⟨(processColumns cat t (cat.columns t) acc.cache).pcols,
            cat.tableComment t⟩)],
          acc.sample_data ++
            (if get_sample_data cat t 3 ≠ [] then [(t, get_sample_data cat t 3)] else []),
          acc.column_semantics ++ (processColumns cat t (cat.columns t) acc.cache).sems,
          (processColumns cat t (cat.columns t) acc.cache).cache⟩
      refine ⟨⟨(processColumns cat t (cat.columns t) acc.cache).pcols, cat.tableComment t⟩,
        ?_, rfl, processColumns_infos cat t (cat.columns t) acc.cache⟩
      rw [hl]
      have hacc : alist_lookup acc.tables t = none :=
        alist_lookup_eq_none_of_not_mem acc.tables t hnot
      rw [List.append_assoc, alist_lookup_append]
      simp [hacc, alist_lookup]
    · have hmem' : t ∈ rest := by
        cases List.mem_cons.mp hmem with
        | inl h => exact absurd h hu
        | inr h => exact h
      rw [analyzeTables]
      apply ih _ hmem'
      simp [hnot, hu]

/-- The identifier fallback equals the simpler rule without the redundant
outer suffix test: it fires exactly when the lowercased name is `id` or
ends in `_id`, removes every `_id` occurrence, labels the non-empty
remainder "Identifier for a {remainder}" and only the bare name `_id`
"Primary identifier". -/
theorem idFallback_characterized (cl : String) :
    idFallback cl =
      (if cl = "id" ∨ strEndsWith cl "_id" = true then
        if pyReplace cl "_id" "" ≠ "" then
          "Identifier for a " ++ pyReplace cl "_id" ""
        else
          "Primary identifier"
      else "") := by
  unfold idFallback
  by_cases h : cl = "id" ∨ strEndsWith cl "_id" = true
  · have houter : anyEndsWith id_patterns cl = true := by
      cases h with
      | inl h1 => subst h1; decide
      | inr h2 => simp [anyEndsWith, id_patterns, h2]
    simp [houter, h]
  · by_cases houter : anyEndsWith id_patterns cl = true
    · simp [houter, h]
    · simp [houter, h]

/-! ## Claims about the inference engine (C1, C2, C5, C6) -/

/-- C1: if the comment store holds a non-empty comment for (table, column)
and the memo does not yet hold the `table.column` key, then
`infer_column_semantics` returns that comment verbatim, for every declared
type and every column name — no name- or type-based pattern rule can
influence the result. -/
theorem infer_comment_wins (colComment : String → String → String)
    (cache : Cache) (t c dt : String)
    (hcache : alist_lookup cache (t ++ "." ++ c) = none)
    (hcomment : colComment t c ≠ "") :
    (infer_column_semantics colComment cache t c dt).label = colComment t c := by
  simp [infer_column_semantics, hcache, hcomment]

/-- Witness for `infer_comment_wins` at a concrete store and key. -/
theorem infer_comment_wins_witness :
    alist_lookup ([] : Cache) ("orders" ++ "." ++ "order_id") = none ∧
    demoComments "orders" "order_id" ≠ "" ∧
    (infer_column_semantics demoComments [] "orders" "order_id" "integer").label
      = demoComments "orders" "order_id" :=
  ⟨rfl, by decide, infer_comment_wins demoComments [] "orders" "order_id" "integer" rfl (by decide)⟩

/-- C2: in the spec's `orders` scenario (timestamp columns, no stored
comments, fresh memo) `order_date` gets "Date when the order was placed"
and `delivery_date` gets "Date when items were actually delivered to the
customer" — two distinct labels, both directly from
`infer_column_semantics` and in the built snapshot's semantics map; and a
name matching both the delivered and the ordered groups gets the
delivered label, the groups being tested in the source's listed order
with the first match winning. -/
theorem infer_date_role_disambiguation :
    (infer_column_semantics noComments [] "orders" "order_date" "timestamp").label
      = "Date when the order was placed" ∧
    (infer_column_semantics noComments [] "orders" "delivery_date" "timestamp").label
      = "Date when items were actually delivered to the customer" ∧
    ("Date when the order was placed" : String)
      ≠ "Date when items were actually delivered to the customer" ∧
    alist_lookup (analyze_schema ordersCat []).column_semantics "orders.order_date"
      = some "Date when the order was placed" ∧
    alist_lookup (analyze_schema ordersCat []).column_semantics "orders.delivery_date"
      = some "Date when items were actually delivered to the customer" ∧
    (infer_column_semantics noComments [] "orders" "delivery_date_ordered" "timestamp").label
      = "Date when items were actually delivered to the customer" :=
  ⟨rfl, rfl, by decide, rfl, rfl, rfl⟩

/-- C6: repeat calls with an identical (table, column, type) triple return
the identical label; the second call is answered from the memo with zero
comment-store lookups and leaves the memo unchanged, and any single call
performs at most one comment-store lookup. -/
theorem infer_memoized_single_lookup (colComment : String → String → String)
    (cache : Cache) (t c dt : String) :
    (infer_column_semantics colComment
        (infer_column_semantics colComment cache t c dt).cache t c dt).label
      = (infer_column_semantics colComment cache t c dt).label ∧
    (infer_column_semantics colComment
        (infer_column_semantics colComment cache t c dt).cache t c dt).commentLookups = 0 ∧
    (infer_column_semantics colComment
        (infer_column_semantics colComment cache t c dt).cache t c dt).cache
      = (infer_column_semantics colComment cache t c dt).cache ∧
    (infer_column_semantics colComment cache t c dt).commentLookups ≤ 1 := by
  cases h : alist_lookup cache (t ++ "." ++ c) with
  | some v => simp [infer_column_semantics, h]
  | none =>
    by_cases hc : colComment t c ≠ ""
    · simp [infer_column_semantics, h, hc, alist_lookup]
    · simp [infer_column_semantics, h, hc, alist_lookup]

/-- C5 counterexample: a column named exactly `id` does not get the label
"primary identifier" — because `col_lower.replace('_id', '')` leaves `"id"`
unchanged, the code labels it "Identifier for a id"; and the replacement
removes every `_id` occurrence, not just the suffix, so `unit_id_id` maps
to "Identifier for a unit" rather than "identifier for a unit_id". -/
theorem identifier_fallback_counterexample :
    (infer_column_semantics noComments [] "users" "id" "smallint").label
      = "Identifier for a id" ∧
    ("Identifier for a id" : String) ≠ "Primary identifier" ∧
    ("Identifier for a id" : String) ≠ "primary identifier" ∧
    ("Identifier for a id" : String) ≠ "" ∧
    (infer_column_semantics noComments [] "t" "unit_id_id" "text").label
      = "Identifier for a unit" ∧
    ("Identifier for a unit" : String) ≠ "Identifier for a unit_id" :=
  ⟨rfl, by decide, by decide, by decide, rfl, by decide⟩

/-- C5 amended: for every column whose type-category chains produce no
meaning, `inferPatterns` applies the fallback: if the lowercased name is
exactly `id` or ends with `_id`, every occurrence of the substring `_id`
is removed; a non-empty remainder gives "Identifier for a {remainder}"
(so `id` itself gives "Identifier for a id"), an empty remainder — names
that are pure repetitions of `_id`, such as `_id` and `_id_id` — gives
"Primary identifier", and any other name gives `""`. -/
theorem identifier_fallback_amended :
    (∀ (column_name data_type : String),
      categoryMeaning (pyLower column_name) data_type = "" →
      inferPatterns column_name data_type =
        (if pyLower column_name = "id" ∨ strEndsWith (pyLower column_name) "_id" = true then
          if pyReplace (pyLower column_name) "_id" "" ≠ "" then
            "Identifier for a " ++ pyReplace (pyLower column_name) "_id" ""
          else
            "Primary identifier"
        else "")) ∧
    inferPatterns "id" "smallint" = "Identifier for a id" ∧
    inferPatterns "_id" "smallint" = "Primary identifier" ∧
    inferPatterns "_id_id" "smallint" = "Primary identifier" ∧
    inferPatterns "unit_id_id" "text" = "Identifier for a unit" ∧
    inferPatterns "api_key" "smallint" = "" := by
  refine ⟨?_, rfl, rfl, rfl, rfl, rfl⟩
  intro column_name data_type h
  unfold inferPatterns
  rw [h]
  simp only [if_pos rfl]
  exact idFallback_characterized (pyLower column_name)

/-- Witness for `identifier_fallback_amended` at the column name `id`. -/
theorem identifier_fallback_amended_witness :
    categoryMeaning (pyLower "id") "smallint" = "" ∧
    inferPatterns "id" "smallint" = "Identifier for a id" :=
  ⟨rfl, identifier_fallback_amended.1 "id" "smallint" rfl⟩

/-! ## Claims about SQL extraction and the empty-extraction guard (C3, C4) -/

/-- C3 counterexample: the claim's label rule requires a colon, but the
source's regex makes the colon optional, so on "SQL SELECT 1;" the code
strips the bare "SQL " label while the claim's algorithm leaves the
string unchanged. -/
theorem extract_label_colon_counterexample :
    extract_sql_from_response "SQL SELECT 1;" = "SELECT 1;" ∧
    extractSqlClaim "SQL SELECT 1;" = "SQL SELECT 1;" ∧
    ("SELECT 1;" : String) ≠ "SQL SELECT 1;" :=
  ⟨rfl, rfl, by decide⟩

/-- C3 amended: for every input, `extract_sql_from_response` takes the
first fenced block's interior trimmed (else the whole input trimmed),
strips one leading case-insensitive label "SQL query", "Query" or "SQL"
together with an optional colon and any following whitespace, and removes
all remaining backticks; the claim's three concrete examples hold. -/
theorem extract_pipeline_amended :
    (∀ s : String, extract_sql_from_response s = extractSqlAmended s) ∧
    extract_sql_from_response "Here:\n```sql\nSELECT 1;\n```" = "SELECT 1;" ∧
    extract_sql_from_response "SQL: SELECT 1;" = "SELECT 1;" ∧
    extract_sql_from_response "" = "" := by
  refine ⟨?_, rfl, rfl, rfl⟩
  intro s
  unfold extract_sql_from_response extractSqlAmended
  rw [stripSqlLabel_eq_amended]

/-- C4 counterexample: on a response with no usable SQL the extraction is
empty, yet the `main` of src/pg-query/streamlit.py still submits the empty
string to query execution instead of halting. -/
theorem empty_extraction_submitted_counterexample :
    extract_sql_from_response "" = "" ∧
    mainSubmitDecision "" = SubmitDecision.submit "" ∧
    mainSubmitDecision "" ≠ SubmitDecision.haltEmptyExtraction :=
  ⟨rfl, rfl, by decide⟩

/-- C4 amended: the ui caller halts before execution with a distinct
report whenever extraction is empty, while the streamlit.py caller passes
the extracted string (empty or not) directly to execution. -/
theorem empty_extraction_handling_amended :
    (∀ raw : String, extract_sql_from_response raw = "" →
      uiSubmitDecision raw = SubmitDecision.haltEmptyExtraction) ∧
    (∀ raw : String,
      mainSubmitDecision raw = SubmitDecision.submit (extract_sql_from_response raw)) := by
  refine ⟨?_, fun raw => rfl⟩
  intro raw h
  simp [uiSubmitDecision, h]

/-- Witness for `empty_extraction_handling_amended` at the empty response. -/
theorem empty_extraction_handling_amended_witness :
    extract_sql_from_response "" = "" ∧
    uiSubmitDecision "" = SubmitDecision.haltEmptyExtraction :=
  ⟨rfl, empty_extraction_handling_amended.1 "" rfl⟩

/-! ## Claim about the snapshot builder (C9) -/

/-- C9: when a table's raw sample fetch fails, the snapshot build still
completes: the failing table is present in the table map with its catalog
comment and columns, it has no `sample_data` entry, and the table map's
keys are exactly the catalog's full table list (every other table is
analyzed too). -/
theorem sample_fetch_failure_isolated (cat : Catalog) (t e : String)
    (ht : t ∈ cat.tables) (he : cat.sampleFetch t = Except.error e) :
    (∃ ti, alist_lookup (analyze_schema cat []).tables t = some ti ∧
        ti.comment = cat.tableComment t ∧
        ti.columns.map (fun pc => pc.info) = cat.columns t) ∧
    alist_lookup (analyze_schema cat []).sample_data t = none ∧
    ((analyze_schema cat []).tables).map Prod.fst = cat.tables := by
  refine ⟨?_, ?_, ?_⟩
  · exact analyzeTables_tables_entry cat t cat.tables ⟨[], [], [], []⟩ ht (by simp)
  · exact alist_lookup_eq_none_of_not_mem _ _
      (analyzeTables_sd_not_mem cat t e he cat.tables ⟨[], [], [], []⟩ (by simp))
  · simpa using analyzeTables_table_keys cat cat.tables ⟨[], [], [], []⟩

/-- Witness for `sample_fetch_failure_isolated` on `failCat`. -/
theorem sample_fetch_failure_isolated_witness :
    ("bad" ∈ failCat.tables ∧ failCat.sampleFetch "bad" = Except.error "permission denied") ∧
    ((∃ ti, alist_lookup (analyze_schema failCat []).tables "bad" = some ti ∧
        ti.comment = failCat.tableComment "bad" ∧
        ti.columns.map (fun pc => pc.info) = failCat.columns "bad") ∧
     alist_lookup (analyze_schema failCat []).sample_data "bad" = none ∧
     ((analyze_schema failCat []).tables).map Prod.fst = failCat.tables) :=
  ⟨⟨by decide, rfl⟩, sample_fetch_failure_isolated failCat "bad" "permission denied" (by decide) rfl⟩

/-! ## Claim about the relationship connective (C10) -/

/-- C10: for every relationship whose owning column has a non-empty
semantic while the referenced column's semantic is empty, both renderers
emit the connective with the referenced table's name in the "to" slot. -/
theorem relationship_connective_fallback (semMap : List (String × String)) (rel : RelEntry)
    (hfk : ((alist_lookup semMap (rel.table ++ "." ++ rel.column)).getD "") ≠ "")
    (hpk : ((alist_lookup semMap (rel.references_table ++ "." ++ rel.references_column)).getD "")
      = "") :
    relLineDescription semMap rel =
      "  - " ++ rel.table ++ "." ++ rel.column ++ " references "
        ++ rel.references_table ++ "." ++ rel.references_column ++ "\n"
        ++ "    (Connects "
        ++ ((alist_lookup semMap (rel.table ++ "." ++ rel.column)).getD "" ++ " ")
        ++ "to " ++ rel.references_table ++ ")\n" ∧
    relLineLLM semMap rel =
      "- " ++ rel.table ++ "." ++ rel.column ++ " → "
        ++ rel.references_table ++ "." ++ rel.references_column
        ++ " (Connects "
        ++ ((alist_lookup semMap (rel.table ++ "." ++ rel.column)).getD "" ++ " ")
        ++ "to " ++ rel.references_table ++ ")" ++ "\n" := by
  constructor
  · unfold relLineDescription
    rw [hpk]
    simp [hfk]
  · unfold relLineLLM
    rw [hpk]
    simp [hfk]

/-- Witness for `relationship_connective_fallback` on `demoSemMap`. -/
theorem relationship_connective_fallback_witness :
    ((alist_lookup demoSemMap (demoRel.table ++ "." ++ demoRel.column)).getD "") ≠ "" ∧
    ((alist_lookup demoSemMap
        (demoRel.references_table ++ "." ++ demoRel.references_column)).getD "") = "" ∧
    relLineDescription demoSemMap demoRel =
      "  - orders.customer_id references customers.id\n    (Connects Identifier for a customer to customers)\n" ∧
    relLineLLM demoSemMap demoRel =
      "- orders.customer_id → customers.id (Connects Identifier for a customer to customers)\n" := by
  refine ⟨by decide, rfl, ?_, ?_⟩
  · exact ((relationship_connective_fallback demoSemMap demoRel (by decide) rfl).1).trans (by decide)
  · exact ((relationship_connective_fallback demoSemMap demoRel (by decide) rfl).2).trans (by decide)

/-! ## Claim about the repair-flow history (C7) -/

/-- C7 counterexample: a failing generated query followed by a successful
user edit leaves exactly one history entry — the successful edited
attempt; the failing attempt is never appended. -/
theorem history_failing_attempt_counterexample :
    (generatedQueryFlow demoExec "expl" "2026-10-12 00:00:00" "how many orders"
        "SELECT count(*) FROM ordr" "SELECT count(*) FROM orders" []).map
        (fun en => en.sql_query) = ["SELECT count(*) FROM orders"] ∧
    ¬ ("SELECT count(*) FROM ordr" ∈
        (generatedQueryFlow demoExec "expl" "2026-10-12 00:00:00" "how many orders"
          "SELECT count(*) FROM ordr" "SELECT count(*) FROM orders" []).map
          (fun en => en.sql_query)) ∧
    (generatedQueryFlow demoExec "expl" "2026-10-12 00:00:00" "how many orders"
        "SELECT count(*) FROM ordr" "SELECT count(*) FROM orders" []).length = 1 :=
  ⟨rfl, by decide, rfl⟩

/-- C7 amended: only successful executions are appended to the history:
a successful generated query appends its entry, a failing generated query
followed by a successful edit appends only the edited entry, and two
failures append nothing. -/
theorem history_success_only_amended (exec : String → Except String Nat)
    (expl ts q sql fixed : String) (h : List HistoryEntry) :
    (∀ n, exec sql = Except.ok n →
      generatedQueryFlow exec expl ts q sql fixed h = h ++ [⟨q, sql, n, expl, ts⟩]) ∧
    (∀ err n, exec sql = Except.error err → exec fixed = Except.ok n →
      generatedQueryFlow exec expl ts q sql fixed h
        = h ++ [⟨"FIXED: " ++ q, fixed, n, "Manually fixed query", ts⟩]) ∧
    (∀ err err2, exec sql = Except.error err → exec fixed = Except.error err2 →
      generatedQueryFlow exec expl ts q sql fixed h = h) := by
  refine ⟨?_, ?_, ?_⟩
  · intro n hn
    simp [generatedQueryFlow, hn]
  · intro err n herr hn
    simp [generatedQueryFlow, herr, hn]
  · intro err err2 herr herr2
    simp [generatedQueryFlow, herr, herr2]

/-- Witness for `history_success_only_amended` on `demoExec`. -/
theorem history_success_only_amended_witness :
    demoExec "SELECT count(*) FROM ordr" = Except.error "relation does not exist" ∧
    demoExec "SELECT count(*) FROM orders" = Except.ok 1 ∧
    generatedQueryFlow demoExec "expl" "t0" "q0"
        "SELECT count(*) FROM ordr" "SELECT count(*) FROM orders" []
      = [⟨"FIXED: " ++ "q0", "SELECT count(*) FROM orders", 1, "Manually fixed query", "t0"⟩] :=
  ⟨rfl, rfl,
    (history_success_only_amended demoExec "expl" "t0" "q0"
      "SELECT count(*) FROM ordr" "SELECT count(*) FROM orders" []).2.1
      "relation does not exist" 1 rfl rfl⟩

/-! ## Claim about connection liveness (C8) -/

/-- C8 counterexample: with a dead (not merely absent) connection,
`execute_query` performs zero reconnect attempts and submits the query on
the dead connection — the failure surfaces as an execution error, not as
a pre-submission liveness detection; the ui path by contrast reconnects
once before submitting. -/
theorem dead_connection_counterexample :
    execute_query_conn true (fun _ => Except.ok 0) ConnState.dead "SELECT 1"
      = (ConnState.dead, 0, true, Except.error deadConnMessage) ∧
    ui_execute_flow true (fun _ => Except.ok 0) ConnState.dead "SELECT 1"
      = (ConnState.live, 1, true, Except.ok 0) :=
  ⟨rfl, rfl⟩

/-- C8 amended: `execute_query` reconnects only for an absent connection
and submits on a dead one with no liveness check, while the ui
generated-query path (with the spec-modelled health check) detects a dead
connection before submission, reconnects exactly once, and surfaces a
terminal error only when that single reconnect fails. -/
theorem connection_liveness_amended :
    (∀ (ok : Bool) (run : String → Except String Nat) (q : String),
      execute_query_conn ok run ConnState.dead q
        = (ConnState.dead, 0, true, Except.error deadConnMessage)) ∧
    (∀ (run : String → Except String Nat) (q : String),
      execute_query_conn true run ConnState.absent q = (ConnState.live, 1, true, run q)) ∧
    (∀ (run : String → Except String Nat) (q : String),
      ui_execute_flow true run ConnState.dead q = (ConnState.live, 1, true, run q)) ∧
    (∀ (run : String → Except String Nat) (q : String),
      ui_execute_flow false run ConnState.dead q
        = (ConnState.dead, 1, false, Except.error reconnectFailMessage)) ∧
    (∀ (run : String → Except String Nat) (q : String),
      ui_execute_flow true run ConnState.live q = (ConnState.live, 0, true, run q)) :=
  ⟨fun ok _ _ => by cases ok <;> rfl, fun _ _ => rfl, fun _ _ => rfl, fun _ _ => rfl,
    fun _ _ => rfl⟩
